import Mathlib

/-!
Shallow embedding of libavutil/opencl.c (an OpenCL wrapper: device
enumeration, a reference-counted global compute environment, a kernel
source registry with lazy compilation, kernel handle management, and
buffer transfer helpers).

Modelling conventions:
  * C machine integers that can go negative (init_count, kernel_count,
    plane sizes, option indices) are Int; sizes and array lengths are Nat.
  * Opaque OpenCL handles (cl_context, cl_command_queue, cl_program,
    cl_kernel, cl_mem, cl_platform_id, cl_device_id) are Nat, with 0
    standing for the C NULL pointer, matching the truthiness checks of
    the source.
  * Calls into the OpenCL runtime are nondeterministic from the point of
    view of this file; each operation takes an oracle describing the
    outcomes of those calls.  Oracles never describe repository code,
    only the external runtime.
  * Observable resource actions (clRelease*, creations, enumeration) are
    recorded as CLEvent values so that claims about when resources are
    released become statements about emitted events.
  * Out-of-bounds array accesses and other C undefined behavior are
    modelled by returning none from the affected operation.
  * Signed-int overflow in the plane-size summation loop (undefined
    behavior in C) is not modelled; the sum is taken over Int exactly.
-/

/-- MAX_KERNEL_NUM from opencl.c. -/
def MAX_KERNEL_NUM : Int := 500

/-- MAX_KERNEL_CODE_NUM from opencl.c (bound of both the kernel source
table and the program table). -/
def MAX_KERNEL_CODE_NUM : Nat := 200

/-- Modelled from the spec: fixed maximum kernel-name length, declared in
the header opencl.h which is not part of the provided sources; the spec
only says the name length is validated against a fixed maximum. -/
def AV_OPENCL_MAX_KERNEL_NAME_SIZE : Nat := 150

/-- AVERROR(EINVAL) as on Linux: -22. -/
def AVERROR_EINVAL : Int := -22

/-- AVERROR(ENOMEM) as on Linux: -12. -/
def AVERROR_ENOMEM : Int := -12

/-- AVERROR_EXTERNAL, the negated FFERRTAG of EXT followed by a space. -/
def AVERROR_EXTERNAL : Int := -542398533

/-- Conversion of a C int value to unsigned int (32-bit), as performed by
the cast in the plane_num check. -/
def intToU32 (x : Int) : Nat := (x % (2 ^ 32)).toNat

/-- Conversion of a C int value to size_t (64-bit), as performed by the
usual arithmetic conversions in the comparison against cl_buffer_size. -/
def intToU64 (x : Int) : Nat := (x % (2 ^ 64)).toNat

/-- The opencl_err_msg table: status code paired with the message string,
in source order.  The codes are the CL_* constants of the OpenCL headers. -/
def opencl_err_msg : List (Int × String) :=
  [(-1, "DEVICE NOT FOUND"),
   (-2, "DEVICE NOT AVAILABLE"),
   (-3, "COMPILER NOT AVAILABLE"),
   (-4, "MEM OBJECT ALLOCATION FAILURE"),
   (-5, "OUT OF RESOURCES"),
   (-6, "OUT OF HOST MEMORY"),
   (-7, "PROFILING INFO NOT AVAILABLE"),
   (-8, "MEM COPY OVERLAP"),
   (-9, "IMAGE FORMAT MISMATCH"),
   (-10, "IMAGE FORMAT NOT_SUPPORTED"),
   (-11, "BUILD PROGRAM FAILURE"),
   (-12, "MAP FAILURE"),
   (-13, "MISALIGNED SUB BUFFER OFFSET"),
   (-14, "EXEC STATUS ERROR FOR EVENTS IN WAIT LIST"),
   (-15, "COMPILE PROGRAM FAILURE"),
   (-16, "LINKER NOT AVAILABLE"),
   (-17, "LINK PROGRAM FAILURE"),
   (-18, "DEVICE PARTITION FAILED"),
   (-19, "KERNEL ARG INFO NOT AVAILABLE"),
   (-30, "INVALID VALUE"),
   (-31, "INVALID DEVICE TYPE"),
   (-32, "INVALID PLATFORM"),
   (-33, "INVALID DEVICE"),
   (-34, "INVALID CONTEXT"),
   (-35, "INVALID QUEUE PROPERTIES"),
   (-36, "INVALID COMMAND QUEUE"),
   (-37, "INVALID HOST PTR"),
   (-38, "INVALID MEM OBJECT"),
   (-39, "INVALID IMAGE FORMAT DESCRIPTOR"),
   (-40, "INVALID IMAGE SIZE"),
   (-41, "INVALID SAMPLER"),
   (-42, "INVALID BINARY"),
   (-43, "INVALID BUILD OPTIONS"),
   (-44, "INVALID PROGRAM"),
   (-45, "INVALID PROGRAM EXECUTABLE"),
   (-46, "INVALID KERNEL NAME"),
   (-47, "INVALID KERNEL DEFINITION"),
   (-48, "INVALID KERNEL"),
   (-49, "INVALID ARG INDEX"),
   (-50, "INVALID ARG VALUE"),
   (-51, "INVALID ARG_SIZE"),
   (-52, "INVALID KERNEL ARGS"),
   (-53, "INVALID WORK DIMENSION"),
   (-54, "INVALID WORK GROUP SIZE"),
   (-55, "INVALID WORK ITEM SIZE"),
   (-56, "INVALID GLOBAL OFFSET"),
   (-57, "INVALID EVENT WAIT LIST"),
   (-58, "INVALID EVENT"),
   (-59, "INVALID OPERATION"),
   (-60, "INVALID GL OBJECT"),
   (-61, "INVALID BUFFER SIZE"),
   (-62, "INVALID MIP LEVEL"),
   (-63, "INVALID GLOBAL WORK SIZE"),
   (-64, "INVALID PROPERTY"),
   (-65, "INVALID IMAGE DESCRIPTOR"),
   (-66, "INVALID COMPILER OPTIONS"),
   (-67, "INVALID LINKER OPTIONS"),
   (-68, "INVALID DEVICE PARTITION COUNT")]

/-- Loop bound of opencl_errstr in the source: the loop condition is
i less than sizeof of the whole opencl_err_msg array, which is the size
in bytes, not the entry count.  With 58 entries of 16 bytes each (LP64),
the bound is 928. -/
def OPENCL_ERRSTR_LOOP_BOUND : Nat := 58 * 16

/-- The lookup loop of opencl_errstr.  Index i walks up to the byte-size
bound; reading an index beyond the end of the 58-entry table is an
out-of-bounds read, modelled as none (undefined behavior). -/
def errstrLoop (status : Int) (i : Nat) (fuel : Nat) : Option String :=
  match fuel with
  | 0 => some "unknown error"
  | fuel + 1 =>
    if i < OPENCL_ERRSTR_LOOP_BOUND then
      match opencl_err_msg.get? i with
      | none => none
      | some p => if p.1 = status then some p.2 else errstrLoop status (i + 1) fuel
    else some "unknown error"

/-- opencl_errstr from the source.  Returns some of the message string
when the loop finds the code, some of the fixed fallback if the loop
ever ran to its bound, and none when the loop reads past the end of the
table (undefined behavior). -/
def opencl_errstr (status : Int) : Option String :=
  errstrLoop status 0 OPENCL_ERRSTR_LOOP_BOUND

/-- The loop of opencl_errstr with the evidently intended bound, the
entry count of the table (what FF_ARRAY_ELEMS would give). -/
def opencl_errstr_intended (status : Int) : String :=
  match opencl_err_msg.find? (fun p => p.1 = status) with
  | some p => p.2
  | none => "unknown error"

/-- One entry of the kernel source table.  kernel_string is the identity
of the caller-supplied source pointer; the pointed-to text is looked up
through a separate memory map when its length is needed. -/
structure KernelCode where
  is_compiled : Bool
  kernel_string : Nat
deriving Repr, DecidableEq

/-- One device of a platform, as recorded by device enumeration. -/
structure DeviceNode where
  device_id : Nat
  device_type : Nat
deriving Repr, DecidableEq

/-- One platform of the cached device list. -/
structure PlatformNode where
  platform_id : Nat
  devices : List DeviceNode
deriving Repr, DecidableEq

/-- The global GPUEnv of opencl.c.  The programs field keeps the whole
fixed-size array (length MAX_KERNEL_CODE_NUM, entry 0 meaning NULL)
because av_opencl_uninit nulls released slots without resetting
program_count. -/
structure GPUEnv where
  init_count : Int
  platform_idx : Int
  device_idx : Int
  platform_id : Nat
  device_type : Nat
  context : Nat
  device_id : Nat
  command_queue : Nat
  program_count : Nat
  programs : List Nat
  kernel_code : List KernelCode
  kernel_count : Int
  is_user_created : Bool
  device_list : List PlatformNode
deriving Repr, DecidableEq

/-- The zero-initialized static gpu_env. -/
def GPUEnv.initial : GPUEnv :=
  { init_count := 0, platform_idx := 0, device_idx := 0, platform_id := 0,
    device_type := 0, context := 0, device_id := 0, command_queue := 0,
    program_count := 0, programs := List.replicate MAX_KERNEL_CODE_NUM 0,
    kernel_code := [], kernel_count := 0, is_user_created := false,
    device_list := [] }

/-- AVOpenCLExternalEnv: a caller-supplied environment descriptor. -/
structure AVOpenCLExternalEnv where
  platform_id : Nat
  device_id : Nat
  context : Nat
  command_queue : Nat
  device_type : Nat
deriving Repr, DecidableEq

/-- AVOpenCLKernelEnv: a caller-owned kernel handle. -/
structure AVOpenCLKernelEnv where
  kernel : Nat
  command_queue : Nat
  kernel_name : String
deriving Repr, DecidableEq

/-- A kernel handle holding nothing. -/
def emptyKernelEnv : AVOpenCLKernelEnv := { kernel := 0, command_queue := 0, kernel_name := "" }

/-- Observable actions on OpenCL runtime objects. -/
inductive CLEvent where
  | releaseProgram (p : Nat)
  | releaseCommandQueue (q : Nat)
  | releaseContext (c : Nat)
  | freeDeviceList
  | releaseKernel (k : Nat)
  | releaseMemObject (m : Nat)
  | getDeviceList
  | createContext (c : Nat)
  | createCommandQueue (q : Nat)
deriving Repr, DecidableEq

/-- Whether an event releases one of the resources owned by the global
environment: a compiled program, the command queue, the context, or the
cached device list. -/
def CLEvent.isEnvRelease : CLEvent → Bool
  | .releaseProgram _ => true
  | .releaseCommandQueue _ => true
  | .releaseContext _ => true
  | .freeDeviceList => true
  | _ => false

/-- Pointer-identity scan of the kernel source table, as in the
registration loop of av_opencl_register_kernel_code. -/
def containsCode (kcs : List KernelCode) (code : Nat) : Bool :=
  kcs.any (fun kc => kc.kernel_string == code)

/-- av_opencl_register_kernel_code.  Note the capacity check runs before
the duplicate scan, so at a full table even an already-registered source
gets the capacity error. -/
def av_opencl_register_kernel_code (g : GPUEnv) (code : Nat) : GPUEnv × Int :=
  if MAX_KERNEL_CODE_NUM ≤ g.kernel_code.length then (g, AVERROR_EINVAL)
  else if containsCode g.kernel_code code then (g, 0)
  else ({g with kernel_code := g.kernel_code ++ [⟨false, code⟩]}, 0)

/-- The clCreateKernel search loop of av_opencl_create_kernel: try each
program in table order, stop at the first success.  The oracle ck gives
the outcome of clCreateKernel for one program handle and kernel name. -/
def firstKernel (ck : Nat → String → Option Nat) (name : String) : List Nat → Option Nat
  | [] => none
  | p :: rest =>
    match ck p name with
    | some k => some k
    | none => firstKernel ck name rest

/-- av_opencl_create_kernel. -/
def av_opencl_create_kernel (g : GPUEnv) (env : AVOpenCLKernelEnv) (kernel_name : String)
    (ck : Nat → String → Option Nat) : GPUEnv × AVOpenCLKernelEnv × Int :=
  if AV_OPENCL_MAX_KERNEL_NAME_SIZE < kernel_name.length + 1 then (g, env, AVERROR_EINVAL)
  else if env.kernel ≠ 0 then (g, env, 0)
  else if MAX_KERNEL_NUM ≤ g.kernel_count then (g, env, AVERROR_EINVAL)
  else if g.program_count = 0 then (g, env, AVERROR_EINVAL)
  else
    match firstKernel ck kernel_name (g.programs.take g.program_count) with
    | some k =>
        ({g with kernel_count := g.kernel_count + 1},
         { kernel := k, command_queue := g.command_queue, kernel_name := kernel_name }, 0)
    | none => (g, env, AVERROR_EXTERNAL)

/-- av_opencl_release_kernel. -/
def av_opencl_release_kernel (g : GPUEnv) (env : AVOpenCLKernelEnv) :
    GPUEnv × AVOpenCLKernelEnv × List CLEvent :=
  if env.kernel = 0 then (g, env, [])
  else ({g with kernel_count := g.kernel_count - 1}, emptyKernelEnv,
        [CLEvent.releaseKernel env.kernel])

/-- av_opencl_buffer_release.  The argument none models a NULL cl_mem
pointer; some h models a pointer to a handle with value h (0 = empty).
For a non-null pointer the source always calls clReleaseMemObject and
then zeroes the handle; the call releases an object only when the handle
was non-null (on NULL it fails with INVALID MEM OBJECT, which is only
logged). -/
def av_opencl_buffer_release (cl_buf : Option Nat) : Option Nat × List CLEvent :=
  match cl_buf with
  | none => (none, [])
  | some h => (some 0, if h = 0 then [] else [CLEvent.releaseMemObject h])

/-- Result of av_opencl_buffer_write_image: the return code, whether
clEnqueueMapBuffer was invoked, and with which region size (0 when it
was not invoked). -/
structure MapResult where
  ret : Int
  mapped : Bool
  map_size : Nat
deriving Repr, DecidableEq

/-- The plane-size summation loop: sum of the first n entries. -/
def sumPlanes (plane_size : List Int) (n : Nat) : Int :=
  (plane_size.take n).foldl (fun a b => a + b) 0

/-- av_opencl_buffer_write_image.  The validation compares the plane-size
sum alone against cl_buffer_size; the destination offset enters only the
size of the mapped region, after validation.  mapOk and unmapOk are the
oracle outcomes of the map and unmap calls. -/
def av_opencl_buffer_write_image (cl_buffer_size : Nat) (dst_cl_offset : Int)
    (plane_size : List Int) (plane_num : Int) (mapOk unmapOk : Bool) : MapResult :=
  if 8 < intToU32 plane_num then { ret := AVERROR_EINVAL, mapped := false, map_size := 0 }
  else
    let buffer_size := sumPlanes plane_size (intToU32 plane_num)
    if cl_buffer_size < intToU64 buffer_size then
      { ret := AVERROR_EINVAL, mapped := false, map_size := 0 }
    else
      let region := intToU64 (buffer_size + dst_cl_offset)
      if mapOk = false then { ret := AVERROR_EXTERNAL, mapped := true, map_size := region }
      else if unmapOk = false then { ret := AVERROR_EXTERNAL, mapped := true, map_size := region }
      else { ret := 0, mapped := true, map_size := region }

/-- Outcome of a failing OpenCL helper that can report either an external
error or an allocation failure. -/
inductive CLFail where
  | external
  | enomem
deriving Repr, DecidableEq

/-- The return code of the failing helper. -/
def CLFail.toRet : CLFail → Int
  | .external => AVERROR_EXTERNAL
  | .enomem => AVERROR_ENOMEM

/-- Oracle for the OpenCL calls made by init_opencl_env: the outcome of
get_device_list (the enumerated platforms, or a failure), of
clCreateContextFromType (a handle, or none for a bad status) and of
clCreateCommandQueue. -/
structure InitOracle where
  device_list_result : Except CLFail (List PlatformNode)
  context_result : Option Nat
  queue_result : Option Nat

/-- Oracle for the OpenCL calls made by compile_kernel_file: the outcome
of clCreateProgramWithSource (none for a bad status, some p for success
returning handle p, where p = 0 models a NULL program with a success
status) and of clBuildProgram. -/
structure CompileOracle where
  create_result : Option Nat
  build_ok : Bool

/-- C array indexing with an int index: negative indices and indices at
or past the length are out of bounds. -/
def idxGet {α : Type} (l : List α) (i : Int) : Option α :=
  if i < 0 then none else l.get? i.toNat

/-- The platform auto-select loop of init_opencl_env: first platform
with at least one device, returning its id and index. -/
def pickPlatform : List PlatformNode → Option (Nat × Nat)
  | [] => none
  | p :: rest =>
    if p.devices.length ≠ 0 then some (p.platform_id, 0)
    else match pickPlatform rest with
      | some (pid, i) => some (pid, i + 1)
      | none => none

/-- Tail of init_opencl_env: read the selected device node, then create
the context and the command queue.  The source assigns the raw return
value of each create call before testing its status, so a failed create
leaves a NULL handle in the corresponding field. -/
def init_bind_device (g : GPUEnv) (io : InitOracle) :
    Option (GPUEnv × Int × List CLEvent) :=
  match idxGet g.device_list g.platform_idx with
  | none => none
  | some pnode =>
    match idxGet pnode.devices g.device_idx with
    | none => none
    | some dnode =>
      let g1 := {g with device_id := dnode.device_id, device_type := dnode.device_type}
      match io.context_result with
      | none => some ({g1 with context := 0}, AVERROR_EXTERNAL, [])
      | some c =>
        let g2 := {g1 with context := c}
        match io.queue_result with
        | none => some ({g2 with command_queue := 0}, AVERROR_EXTERNAL,
                        [CLEvent.createContext c])
        | some q => some ({g2 with command_queue := q}, 0,
                          [CLEvent.createContext c, CLEvent.createCommandQueue q])

/-- Middle of init_opencl_env: the checks on platform_id and device_idx. -/
def init_check_platform (g : GPUEnv) (io : InitOracle) :
    Option (GPUEnv × Int × List CLEvent) :=
  if g.platform_id = 0 then some (g, AVERROR_EXTERNAL, [])
  else if 0 ≤ g.device_idx then
    match idxGet g.device_list g.platform_idx with
    | none => none
    | some pnode =>
      if (pnode.devices.length : Int) < g.device_idx + 1 then some (g, AVERROR_EINVAL, [])
      else init_bind_device g io
  else init_bind_device {g with device_idx := 0} io

/-- Platform selection of init_opencl_env: a user-set platform index is
validated, otherwise the first platform with a device is picked (the
index loop leaves platform_id and platform_idx untouched when no
platform has a device). -/
def init_select_platform (g : GPUEnv) (io : InitOracle) :
    Option (GPUEnv × Int × List CLEvent) :=
  if 0 ≤ g.platform_idx then
    if (g.device_list.length : Int) < g.platform_idx + 1 then some (g, AVERROR_EINVAL, [])
    else
      match idxGet g.device_list g.platform_idx with
      | none => none
      | some pnode =>
        if pnode.devices.length = 0 then some (g, AVERROR_EINVAL, [])
        else init_check_platform {g with platform_id := pnode.platform_id} io
  else
    match pickPlatform g.device_list with
    | some pi => init_check_platform {g with platform_id := pi.1, platform_idx := (pi.2 : Int)} io
    | none => init_check_platform g io

/-- Discovery path of init_opencl_env: enumerate devices when the cached
list is empty, then select platform and device and create the context
and queue.  A failed enumeration frees its partial list, leaving the
cache empty, and is not an environment release. -/
def init_discover (g : GPUEnv) (io : InitOracle) :
    Option (GPUEnv × Int × List CLEvent) :=
  if g.device_list.length = 0 then
    match io.device_list_result with
    | Except.error f => some (g, f.toRet, [])
    | Except.ok dl =>
      match init_select_platform {g with device_list := dl} io with
      | none => none
      | some r => some (r.1, r.2.1, CLEvent.getDeviceList :: r.2.2)
  else init_select_platform g io

/-- init_opencl_env.  With an external descriptor the environment adopts
its fields verbatim and is marked user-created (unless it already is);
without one, discovery runs only when the environment is not
user-created. -/
def init_opencl_env (g : GPUEnv) (ext : Option AVOpenCLExternalEnv) (io : InitOracle) :
    Option (GPUEnv × Int × List CLEvent) :=
  match ext with
  | some e =>
    if g.is_user_created then some (g, 0, [])
    else
      some ({g with platform_id := e.platform_id, is_user_created := true,
                    command_queue := e.command_queue, context := e.context,
                    device_id := e.device_id, device_type := e.device_type}, 0, [])
  | none =>
    if g.is_user_created then some (g, 0, [])
    else init_discover g io

/-- Mark one kernel source entry compiled, as done inside the
concatenation loop of compile_kernel_file. -/
def markOne (kc : KernelCode) : KernelCode :=
  if kc.is_compiled then kc else {kc with is_compiled := true}

/-- Marking pass over the whole table. -/
def markCompiled : List KernelCode → List KernelCode
  | [] => []
  | kc :: rest => markOne kc :: markCompiled rest

/-- Total length of the uncompiled source texts, as computed by the first
loop of compile_kernel_file.  mem maps a source pointer identity to the
pointed-to text. -/
def uncompiledLen (mem : Nat → String) : List KernelCode → Nat
  | [] => 0
  | kc :: rest =>
    (if kc.is_compiled then 0 else (mem kc.kernel_string).length) + uncompiledLen mem rest

/-- compile_kernel_file.  When nothing uncompiled contributes text the
pass is a success without touching anything.  Otherwise every uncompiled
entry is marked compiled during concatenation, before the program is
created and built; the program slot at program_count is written even on
failure (with 0 after a failed create), and program_count grows only on
full success.  Writing the slot when the program table is full is an
out-of-bounds store, modelled as none. -/
def compile_kernel_file (mem : Nat → String) (g : GPUEnv) (co : CompileOracle) :
    Option (GPUEnv × Int × List CLEvent) :=
  if uncompiledLen mem g.kernel_code = 0 then some (g, 0, [])
  else if MAX_KERNEL_CODE_NUM ≤ g.program_count then none
  else
    let g1 := {g with kernel_code := markCompiled g.kernel_code}
    match co.create_result with
      | none =>
        some ({g1 with programs := g1.programs.set g1.program_count 0}, AVERROR_EXTERNAL, [])
      | some p =>
        let g2 := {g1 with programs := g1.programs.set g1.program_count p}
        if p = 0 then some (g2, AVERROR_EXTERNAL, [])
        else if co.build_ok then some ({g2 with program_count := g2.program_count + 1}, 0, [])
        else some (g2, AVERROR_EXTERNAL, [])

/-- Compilation phase of av_opencl_init: compile, then fail with EINVAL
when no kernel source at all is registered, else bump init_count. -/
def init_compile_phase (mem : Nat → String) (g : GPUEnv) (co : CompileOracle)
    (evs : List CLEvent) : Option (GPUEnv × Int × List CLEvent) :=
  match compile_kernel_file mem g co with
  | none => none
  | some (g2, r2, evs2) =>
    if r2 < 0 then some (g2, r2, evs ++ evs2)
    else if g2.kernel_code.length = 0 then some (g2, AVERROR_EINVAL, evs ++ evs2)
    else some ({g2 with init_count := g2.init_count + 1}, 0, evs ++ evs2)

/-- av_opencl_init.  On a first init (init_count exactly 0) the option
values for device_idx and platform_idx are copied in and the environment
is created or adopted; every init then runs the compile phase. -/
def av_opencl_init (mem : Nat → String) (g : GPUEnv) (optP optD : Int)
    (ext : Option AVOpenCLExternalEnv) (io : InitOracle) (co : CompileOracle) :
    Option (GPUEnv × Int × List CLEvent) :=
  if g.init_count = 0 then
    match init_opencl_env {g with device_idx := optD, platform_idx := optP} ext io with
    | none => none
    | some (g1, r, evs) =>
      if r < 0 then some (g1, r, evs)
      else init_compile_phase mem g1 co evs
  else init_compile_phase mem g co []

/-- Release events for the first program_count program slots, in order,
skipping NULL entries, as in the release loop of av_opencl_uninit. -/
def releaseProgEvents : List Nat → List CLEvent
  | [] => []
  | p :: rest => (if p = 0 then [] else [CLEvent.releaseProgram p]) ++ releaseProgEvents rest

/-- Null out the first n entries of the program array. -/
def nullOutFirst : Nat → List Nat → List Nat
  | _, [] => []
  | 0, l => l
  | n + 1, _ :: rest => 0 :: nullOutFirst n rest

/-- av_opencl_uninit.  The count is decremented unconditionally; a
user-created environment never releases; otherwise teardown runs exactly
when the decremented count and the kernel count are both at most 0,
releasing programs, queue, context and the cached device list (in that
order) and nulling them, while program_count and the source table are
left as they are. -/
def av_opencl_uninit (g : GPUEnv) : GPUEnv × List CLEvent :=
  let g1 := {g with init_count := g.init_count - 1}
  if g1.is_user_created then (g1, [])
  else if 0 < g1.init_count ∨ 0 < g1.kernel_count then (g1, [])
  else
    let progEvs := releaseProgEvents (g1.programs.take g1.program_count)
    let qEvs := if g1.command_queue = 0 then [] else [CLEvent.releaseCommandQueue g1.command_queue]
    let cEvs := if g1.context = 0 then [] else [CLEvent.releaseContext g1.context]
    let dEvs := if g1.device_list.length = 0 then [] else [CLEvent.freeDeviceList]
    ({g1 with programs := nullOutFirst g1.program_count g1.programs,
              command_queue := 0, context := 0, device_list := []},
     progEvs ++ qEvs ++ cEvs ++ dEvs)

/-- Whole-process state: the global environment plus the caller-owned
kernel handles, addressed by index. -/
structure World where
  env : GPUEnv
  handles : List AVOpenCLKernelEnv

/-- The initial state: zeroed global environment and n empty handles. -/
def World.initial (n : Nat) : World :=
  { env := GPUEnv.initial, handles := List.replicate n emptyKernelEnv }

/-- One call into the subsystem.  Each init op carries the option values
read from the option context and the oracles of its OpenCL calls; each
create op carries its clCreateKernel oracle. -/
inductive Op where
  | init (optP optD : Int) (ext : Option AVOpenCLExternalEnv)
         (io : InitOracle) (co : CompileOracle)
  | uninit
  | registerSource (code : Nat)
  | createKernel (h : Nat) (name : String) (ck : Nat → String → Option Nat)
  | releaseKernel (h : Nat)

/-- Whether an op is an init call. -/
def Op.isInit : Op → Bool
  | .init _ _ _ _ _ => true
  | _ => false

/-- Whether an op is an uninit call. -/
def Op.isUninit : Op → Bool
  | .uninit => true
  | _ => false

/-- One step of the subsystem: the new state, the return code (0 for the
void calls) and the emitted events; none on C undefined behavior,
including a handle index that does not denote a caller-owned handle. -/
def step (mem : Nat → String) (w : World) : Op → Option (World × Int × List CLEvent)
  | .init optP optD ext io co =>
    match av_opencl_init mem w.env optP optD ext io co with
    | none => none
    | some (g, r, evs) => some ({w with env := g}, r, evs)
  | .uninit =>
    let p := av_opencl_uninit w.env
    some ({w with env := p.1}, 0, p.2)
  | .registerSource code =>
    let p := av_opencl_register_kernel_code w.env code
    some ({w with env := p.1}, p.2, [])
  | .createKernel h name ck =>
    match w.handles.get? h with
    | none => none
    | some kenv =>
      let p := av_opencl_create_kernel w.env kenv name ck
      some ({ env := p.1, handles := w.handles.set h p.2.1 }, p.2.2, [])
  | .releaseKernel h =>
    match w.handles.get? h with
    | none => none
    | some kenv =>
      let p := av_opencl_release_kernel w.env kenv
      some ({ env := p.1, handles := w.handles.set h p.2.1 }, 0, p.2.2)

/-- Run a sequence of calls, collecting the return codes and all events. -/
def runOps (mem : Nat → String) : World → List Op → Option (World × List Int × List CLEvent)
  | w, [] => some (w, [], [])
  | w, op :: rest =>
    match step mem w op with
    | none => none
    | some (w1, r, evs) =>
      match runOps mem w1 rest with
      | none => none
      | some (wf, rs, evsR) => some (wf, r :: rs, evs ++ evsR)

/-- Number of init calls in a trace that returned 0, pairing each op with
its return code. -/
def successfulInits (ops : List Op) (rets : List Int) : Nat :=
  ((ops.zip rets).filter (fun pr => pr.1.isInit && pr.2 == 0)).length

/-- Number of uninit calls in a trace. -/
def numUninits (ops : List Op) : Nat := (ops.filter Op.isUninit).length

theorem AVERROR_EINVAL_neg : AVERROR_EINVAL < 0 := by decide

theorem AVERROR_EXTERNAL_neg : AVERROR_EXTERNAL < 0 := by decide

theorem CLFail.toRet_neg (f : CLFail) : f.toRet < 0 := by cases f <;> decide

/-- Frame facts of the device-binding tail of discovery. -/
theorem init_bind_device_spec {g : GPUEnv} {io : InitOracle} {g' : GPUEnv} {r : Int}
    {evs : List CLEvent} (h : init_bind_device g io = some (g', r, evs)) :
    g'.init_count = g.init_count ∧ g'.kernel_count = g.kernel_count ∧
    g'.kernel_code = g.kernel_code ∧ g'.program_count = g.program_count ∧
    g'.programs = g.programs ∧ g'.is_user_created = g.is_user_created ∧
    (r = 0 ∨ r < 0) ∧ (∀ e ∈ evs, e.isEnvRelease = false) := by
  unfold init_bind_device at h
  repeat' split at h
  all_goals try exact Option.noConfusion h
  all_goals
    (simp only [Option.some_inj, Prod.mk.injEq] at h
     obtain ⟨rfl, rfl, rfl⟩ := h
     refine ⟨rfl, rfl, rfl, rfl, rfl, rfl, ?_, ?_⟩
     · first
       | exact Or.inl rfl
       | exact Or.inr AVERROR_EXTERNAL_neg
     · simp [CLEvent.isEnvRelease])

/-- Frame facts of the platform and device index checks. -/
theorem init_check_platform_spec {g : GPUEnv} {io : InitOracle} {g' : GPUEnv} {r : Int}
    {evs : List CLEvent} (h : init_check_platform g io = some (g', r, evs)) :
    g'.init_count = g.init_count ∧ g'.kernel_count = g.kernel_count ∧
    g'.kernel_code = g.kernel_code ∧ g'.program_count = g.program_count ∧
    g'.programs = g.programs ∧ g'.is_user_created = g.is_user_created ∧
    (r = 0 ∨ r < 0) ∧ (∀ e ∈ evs, e.isEnvRelease = false) := by
  unfold init_check_platform at h
  repeat' split at h
  all_goals try exact Option.noConfusion h
  all_goals
    first
    | exact init_bind_device_spec h
    | simpa using init_bind_device_spec h
    | (simp only [Option.some_inj, Prod.mk.injEq] at h
       obtain ⟨rfl, rfl, rfl⟩ := h
       refine ⟨rfl, rfl, rfl, rfl, rfl, rfl, ?_, ?_⟩
       · first
         | exact Or.inl rfl
         | exact Or.inr AVERROR_EXTERNAL_neg
         | exact Or.inr AVERROR_EINVAL_neg
       · simp [CLEvent.isEnvRelease])

/-- Frame facts of platform selection. -/
theorem init_select_platform_spec {g : GPUEnv} {io : InitOracle} {g' : GPUEnv} {r : Int}
    {evs : List CLEvent} (h : init_select_platform g io = some (g', r, evs)) :
    g'.init_count = g.init_count ∧ g'.kernel_count = g.kernel_count ∧
    g'.kernel_code = g.kernel_code ∧ g'.program_count = g.program_count ∧
    g'.programs = g.programs ∧ g'.is_user_created = g.is_user_created ∧
    (r = 0 ∨ r < 0) ∧ (∀ e ∈ evs, e.isEnvRelease = false) := by
  unfold init_select_platform at h
  repeat' split at h
  all_goals try exact Option.noConfusion h
  all_goals
    first
    | exact init_check_platform_spec h
    | simpa using init_check_platform_spec h
    | (simp only [Option.some_inj, Prod.mk.injEq] at h
       obtain ⟨rfl, rfl, rfl⟩ := h
       refine ⟨rfl, rfl, rfl, rfl, rfl, rfl, ?_, ?_⟩
       · first
         | exact Or.inl rfl
         | exact Or.inr AVERROR_EXTERNAL_neg
         | exact Or.inr AVERROR_EINVAL_neg
       · simp [CLEvent.isEnvRelease])

/-- Frame facts of the discovery path. -/
theorem init_discover_spec {g : GPUEnv} {io : InitOracle} {g' : GPUEnv} {r : Int}
    {evs : List CLEvent} (h : init_discover g io = some (g', r, evs)) :
    g'.init_count = g.init_count ∧ g'.kernel_count = g.kernel_count ∧
    g'.kernel_code = g.kernel_code ∧ g'.program_count = g.program_count ∧
    g'.programs = g.programs ∧ g'.is_user_created = g.is_user_created ∧
    (r = 0 ∨ r < 0) ∧ (∀ e ∈ evs, e.isEnvRelease = false) := by
  unfold init_discover at h
  repeat' split at h
  all_goals try exact Option.noConfusion h
  · simp only [Option.some_inj, Prod.mk.injEq] at h
    obtain ⟨rfl, rfl, rfl⟩ := h
    refine ⟨rfl, rfl, rfl, rfl, rfl, rfl, Or.inr (CLFail.toRet_neg _), by simp⟩
  · rename_i sel heq
    obtain ⟨gs, rs, evss⟩ := sel
    simp only [Option.some_inj, Prod.mk.injEq] at h
    obtain ⟨rfl, rfl, rfl⟩ := h
    have hs := init_select_platform_spec heq
    simp only at hs
    refine ⟨hs.1, hs.2.1, hs.2.2.1, hs.2.2.2.1, hs.2.2.2.2.1, hs.2.2.2.2.2.1,
            hs.2.2.2.2.2.2.1, ?_⟩
    intro e he
    rcases List.mem_cons.mp he with he | he
    · subst he; rfl
    · exact hs.2.2.2.2.2.2.2 e he
  · exact init_select_platform_spec h

/-- init_opencl_env preserves the counters and the tables, returns 0 or a
negative code, emits no release events, never clears the user-created
flag, and on an already user-created environment does nothing at all. -/
theorem init_opencl_env_spec {g : GPUEnv} {ext : Option AVOpenCLExternalEnv} {io : InitOracle}
    {g' : GPUEnv} {r : Int} {evs : List CLEvent}
    (h : init_opencl_env g ext io = some (g', r, evs)) :
    g'.init_count = g.init_count ∧ g'.kernel_count = g.kernel_count ∧
    g'.kernel_code = g.kernel_code ∧ g'.program_count = g.program_count ∧
    g'.programs = g.programs ∧
    (g.is_user_created = true → g' = g ∧ r = 0 ∧ evs = []) ∧
    (g.is_user_created = true → g'.is_user_created = true) ∧
    (r = 0 ∨ r < 0) ∧ (∀ e ∈ evs, e.isEnvRelease = false) := by
  cases ext with
  | some e =>
    simp only [init_opencl_env] at h
    split at h
    · rename_i hu
      simp only [Option.some_inj, Prod.mk.injEq] at h
      obtain ⟨rfl, rfl, rfl⟩ := h
      exact ⟨rfl, rfl, rfl, rfl, rfl, fun _ => ⟨rfl, rfl, rfl⟩, fun _ => hu, Or.inl rfl, by simp⟩
    · rename_i hu
      simp only [Option.some_inj, Prod.mk.injEq] at h
      obtain ⟨rfl, rfl, rfl⟩ := h
      exact ⟨rfl, rfl, rfl, rfl, rfl, fun hc => absurd hc hu, fun hc => absurd hc hu,
             Or.inl rfl, by simp⟩
  | none =>
    simp only [init_opencl_env] at h
    split at h
    · rename_i hu
      simp only [Option.some_inj, Prod.mk.injEq] at h
      obtain ⟨rfl, rfl, rfl⟩ := h
      exact ⟨rfl, rfl, rfl, rfl, rfl, fun _ => ⟨rfl, rfl, rfl⟩, fun _ => hu, Or.inl rfl, by simp⟩
    · rename_i hu
      have hd := init_discover_spec h
      exact ⟨hd.1, hd.2.1, hd.2.2.1, hd.2.2.2.1, hd.2.2.2.2.1,
             fun hc => absurd hc hu, fun hc => absurd hc hu,
             hd.2.2.2.2.2.2.1, hd.2.2.2.2.2.2.2⟩

/-- Every entry of a marked table is compiled. -/
theorem markCompiled_all {l : List KernelCode} : ∀ kc ∈ markCompiled l, kc.is_compiled = true := by
  induction l with
  | nil => intro kc hkc; exact absurd hkc (by simp [markCompiled])
  | cons a rest ih =>
    intro kc hkc
    simp only [markCompiled, List.mem_cons] at hkc
    rcases hkc with hkc | hkc
    · subst hkc
      unfold markOne
      split
      · rename_i ha; exact ha
      · rfl
    · exact ih kc hkc

/-- Marking acts pointwise. -/
theorem markCompiled_get? {l : List KernelCode} {i : Nat} :
    (markCompiled l).get? i = (l.get? i).map markOne := by
  induction l generalizing i with
  | nil => simp [markCompiled]
  | cons a rest ih =>
    cases i with
    | zero => simp [markCompiled]
    | succ n => simpa [markCompiled] using ih

/-- A compiled entry is untouched by marking. -/
theorem markOne_of_compiled {kc : KernelCode} (h : kc.is_compiled = true) : markOne kc = kc := by
  unfold markOne
  rw [if_pos h]

/-- Frame facts of compile_kernel_file: no events, the counters and the
environment handles are untouched, the return code is 0 or negative, the
source table is either untouched or fully marked, and on a failing pass
the table is fully marked with program_count unchanged. -/
theorem compile_kernel_file_spec {mem : Nat → String} {g : GPUEnv} {co : CompileOracle}
    {g' : GPUEnv} {r : Int} {evs : List CLEvent}
    (h : compile_kernel_file mem g co = some (g', r, evs)) :
    evs = [] ∧ g'.init_count = g.init_count ∧ g'.kernel_count = g.kernel_count ∧
    g'.is_user_created = g.is_user_created ∧ g'.platform_id = g.platform_id ∧
    g'.device_id = g.device_id ∧ g'.device_type = g.device_type ∧
    g'.context = g.context ∧ g'.command_queue = g.command_queue ∧
    g'.device_list = g.device_list ∧ (r = 0 ∨ r < 0) ∧
    (g'.kernel_code = g.kernel_code ∨ g'.kernel_code = markCompiled g.kernel_code) ∧
    (r < 0 → g'.kernel_code = markCompiled g.kernel_code ∧
             g'.program_count = g.program_count) := by
  unfold compile_kernel_file at h
  repeat' split at h
  all_goals try exact Option.noConfusion h
  all_goals
    (simp only [Option.some_inj, Prod.mk.injEq] at h
     obtain ⟨rfl, rfl, rfl⟩ := h
     refine ⟨rfl, rfl, rfl, rfl, rfl, rfl, rfl, rfl, rfl, rfl, ?_, ?_, ?_⟩
     · first
       | exact Or.inl rfl
       | exact Or.inr AVERROR_EXTERNAL_neg
     · first
       | exact Or.inl rfl
       | exact Or.inr rfl
     · intro hr
       first
       | exact ⟨rfl, rfl⟩
       | exact absurd hr (by decide))

/-- An already compiled table entry survives any table transformation a
call can apply (identity or marking). -/
theorem kernel_code_entry_preserved {l l' : List KernelCode}
    (hl : l' = l ∨ l' = markCompiled l) {i : Nat} {kc : KernelCode}
    (hg : l.get? i = some kc) (hc : kc.is_compiled = true) : l'.get? i = some kc := by
  rcases hl with rfl | rfl
  · exact hg
  · rw [markCompiled_get?, hg]
    simp [markOne_of_compiled hc]

/-- Projections of the option-index update made by a first init. -/
theorem setIdx_proj (g : GPUEnv) (optP optD : Int) :
    ({g with device_idx := optD, platform_idx := optP} : GPUEnv).init_count = g.init_count ∧
    ({g with device_idx := optD, platform_idx := optP} : GPUEnv).kernel_count = g.kernel_count ∧
    ({g with device_idx := optD, platform_idx := optP} : GPUEnv).kernel_code = g.kernel_code ∧
    ({g with device_idx := optD, platform_idx := optP} : GPUEnv).is_user_created =
      g.is_user_created ∧
    ({g with device_idx := optD, platform_idx := optP} : GPUEnv).platform_id = g.platform_id ∧
    ({g with device_idx := optD, platform_idx := optP} : GPUEnv).device_id = g.device_id ∧
    ({g with device_idx := optD, platform_idx := optP} : GPUEnv).context = g.context ∧
    ({g with device_idx := optD, platform_idx := optP} : GPUEnv).command_queue =
      g.command_queue ∧
    ({g with device_idx := optD, platform_idx := optP} : GPUEnv).device_type = g.device_type :=
  ⟨rfl, rfl, rfl, rfl, rfl, rfl, rfl, rfl, rfl⟩

/-- Frame facts of the compile phase of av_opencl_init: the events are
exactly the ones carried in, init_count grows by one exactly when the
call returns 0, and everything but the source and program tables is
untouched. -/
theorem init_compile_phase_spec {mem : Nat → String} {g : GPUEnv} {co : CompileOracle}
    {evs0 : List CLEvent} {g' : GPUEnv} {r : Int} {evs : List CLEvent}
    (h : init_compile_phase mem g co evs0 = some (g', r, evs)) :
    g'.init_count = g.init_count + (if r = 0 then 1 else 0) ∧
    (r = 0 ∨ r < 0) ∧ g'.kernel_count = g.kernel_count ∧ evs = evs0 ∧
    g'.is_user_created = g.is_user_created ∧
    g'.platform_id = g.platform_id ∧ g'.device_id = g.device_id ∧
    g'.context = g.context ∧ g'.command_queue = g.command_queue ∧
    g'.device_type = g.device_type ∧
    (g'.kernel_code = g.kernel_code ∨ g'.kernel_code = markCompiled g.kernel_code) := by
  unfold init_compile_phase at h
  split at h
  · exact Option.noConfusion h
  · rename_i t g2 r2 evs2 heq
    obtain ⟨hevs2, hic, hkc, huc, hpid, hdid, hdt, hctx, hq, hdl, hr2, hcode, hfail⟩ :=
      compile_kernel_file_spec heq
    subst hevs2
    split at h
    · rename_i hneg
      simp only [Option.some_inj, Prod.mk.injEq] at h
      obtain ⟨rfl, rfl, rfl⟩ := h
      refine ⟨?_, Or.inr hneg, hkc, by simp, huc, hpid, hdid, hctx, hq, hdt, hcode⟩
      rw [if_neg (by omega : ¬r2 = 0), hic]
      omega
    · split at h
      · simp only [Option.some_inj, Prod.mk.injEq] at h
        obtain ⟨rfl, rfl, rfl⟩ := h
        refine ⟨?_, Or.inr AVERROR_EINVAL_neg, hkc, by simp, huc, hpid, hdid, hctx, hq, hdt,
                hcode⟩
        rw [if_neg (by decide : ¬AVERROR_EINVAL = 0), hic]
        omega
      · simp only [Option.some_inj, Prod.mk.injEq] at h
        obtain ⟨rfl, rfl, rfl⟩ := h
        refine ⟨?_, Or.inl rfl, hkc, by simp, huc, hpid, hdid, hctx, hq, hdt, hcode⟩
        rw [if_pos rfl]
        simp only [GPUEnv.init_count]
        omega

/-- Umbrella facts of av_opencl_init: the return code is 0 or negative;
init_count grows by one exactly on a 0 return; kernel_count is
untouched; no release events are emitted; the user-created flag is never
cleared; on a user-created environment the adopted handles are retained
and no OpenCL object is created or enumerated (no events at all); and an
already compiled source entry survives unchanged. -/
theorem av_opencl_init_spec {mem : Nat → String} {g : GPUEnv} {optP optD : Int}
    {ext : Option AVOpenCLExternalEnv} {io : InitOracle} {co : CompileOracle}
    {g' : GPUEnv} {r : Int} {evs : List CLEvent}
    (h : av_opencl_init mem g optP optD ext io co = some (g', r, evs)) :
    g'.init_count = g.init_count + (if r = 0 then 1 else 0) ∧
    (r = 0 ∨ r < 0) ∧ g'.kernel_count = g.kernel_count ∧
    (∀ e ∈ evs, e.isEnvRelease = false) ∧
    (g.is_user_created = true → g'.is_user_created = true) ∧
    (g.is_user_created = true →
       evs = [] ∧ g'.platform_id = g.platform_id ∧ g'.device_id = g.device_id ∧
       g'.context = g.context ∧ g'.command_queue = g.command_queue ∧
       g'.device_type = g.device_type) ∧
    (∀ i kc, g.kernel_code.get? i = some kc → kc.is_compiled = true →
       g'.kernel_code.get? i = some kc) := by
  obtain ⟨hA1, hA2, hA3, hA4, hA5, hA6, hA7, hA8, hA9⟩ := setIdx_proj g optP optD
  unfold av_opencl_init at h
  split at h
  · split at h
    · exact Option.noConfusion h
    · rename_i t g1 r1 evs1 heq
      obtain ⟨hic1, hkc1, hcode1, _, _, huser1, humono1, hr1, hevs1⟩ :=
        init_opencl_env_spec heq
      split at h
      · rename_i hneg
        simp only [Option.some_inj, Prod.mk.injEq] at h
        obtain ⟨rfl, rfl, rfl⟩ := h
        refine ⟨?_, Or.inr hneg, by rw [hkc1, hA2], hevs1, ?_, ?_, ?_⟩
        · rw [if_neg (by omega : ¬r1 = 0), hic1, hA1]; omega
        · intro hu
          exact humono1 (by rw [hA4]; exact hu)
        · intro hu
          have := (huser1 (by rw [hA4]; exact hu)).2.1
          omega
        · intro i kc hg hc
          rw [hcode1, hA3]; exact hg
      · rename_i hnotneg
        obtain ⟨hic, hr, hkc, hevse, huc, hpid, hdid, hctx, hq, hdt, hcode⟩ :=
          init_compile_phase_spec h
        have hr10 : r1 = 0 := by
          rcases hr1 with hr10 | hr1neg
          · exact hr10
          · exact absurd hr1neg hnotneg
        refine ⟨?_, hr, by rw [hkc, hkc1, hA2], ?_, ?_, ?_, ?_⟩
        · rw [hic, hic1, hA1]
        · intro e hee
          rw [hevse] at hee
          exact hevs1 e hee
        · intro hu
          rw [huc]
          exact humono1 (by rw [hA4]; exact hu)
        · intro hu
          obtain ⟨hg1, _, hevs1e⟩ := huser1 (by rw [hA4]; exact hu)
          refine ⟨by rw [hevse]; exact hevs1e, ?_, ?_, ?_, ?_, ?_⟩
          · rw [hpid, hg1, hA5]
          · rw [hdid, hg1, hA6]
          · rw [hctx, hg1, hA7]
          · rw [hq, hg1, hA8]
          · rw [hdt, hg1, hA9]
        · intro i kc hg hc
          refine kernel_code_entry_preserved hcode ?_ hc
          rw [hcode1, hA3]
          exact hg
  · obtain ⟨hic, hr, hkc, hevse, huc, hpid, hdid, hctx, hq, hdt, hcode⟩ :=
      init_compile_phase_spec h
    refine ⟨hic, hr, hkc, ?_, fun hu => by rw [huc]; exact hu, ?_, ?_⟩
    · intro e hee
      rw [hevse] at hee
      exact absurd hee (by simp)
    · intro hu
      exact ⟨hevse, hpid, hdid, hctx, hq, hdt⟩
    · intro i kc hg hc
      exact kernel_code_entry_preserved hcode hg hc

/-- av_opencl_uninit always just decrements init_count and leaves the
kernel count, the user-created flag and the source table alone. -/
theorem av_opencl_uninit_dec (g : GPUEnv) :
    (av_opencl_uninit g).1.init_count = g.init_count - 1 ∧
    (av_opencl_uninit g).1.kernel_count = g.kernel_count ∧
    (av_opencl_uninit g).1.is_user_created = g.is_user_created ∧
    (av_opencl_uninit g).1.kernel_code = g.kernel_code := by
  unfold av_opencl_uninit
  dsimp only
  split
  · exact ⟨rfl, rfl, rfl, rfl⟩
  · split
    · exact ⟨rfl, rfl, rfl, rfl⟩
    · exact ⟨rfl, rfl, rfl, rfl⟩

/-- When the environment is user-created, or the decremented count or the
kernel count is still positive, av_opencl_uninit only decrements and
emits nothing. -/
theorem av_opencl_uninit_skip {g : GPUEnv}
    (hcond : g.is_user_created = true ∨ 0 < g.init_count - 1 ∨ 0 < g.kernel_count) :
    av_opencl_uninit g = ({g with init_count := g.init_count - 1}, []) := by
  unfold av_opencl_uninit
  dsimp only
  split
  · rfl
  · rename_i hu
    split
    · rfl
    · rename_i hlt
      exfalso
      rcases hcond with hc | hc
      · exact hu hc
      · exact hlt hc

/-- Lookup in the left part of an append is unchanged. -/
theorem get?_append_left {α : Type} {l1 l2 : List α} {i : Nat} {a : α}
    (h : l1.get? i = some a) : (l1 ++ l2).get? i = some a := by
  induction l1 generalizing i with
  | nil => simp at h
  | cons x rest ih =>
    cases i with
    | zero => simpa using h
    | succ n => simpa using ih (by simpa using h)

/-- Registration never touches the counters, the flag, or existing
entries of the source table. -/
theorem av_opencl_register_kernel_code_spec (g : GPUEnv) (code : Nat) :
    (av_opencl_register_kernel_code g code).1.init_count = g.init_count ∧
    (av_opencl_register_kernel_code g code).1.kernel_count = g.kernel_count ∧
    (av_opencl_register_kernel_code g code).1.is_user_created = g.is_user_created ∧
    (∀ i kc, g.kernel_code.get? i = some kc →
       (av_opencl_register_kernel_code g code).1.kernel_code.get? i = some kc) := by
  unfold av_opencl_register_kernel_code
  split
  · exact ⟨rfl, rfl, rfl, fun i kc hg => hg⟩
  · split
    · exact ⟨rfl, rfl, rfl, fun i kc hg => hg⟩
    · exact ⟨rfl, rfl, rfl, fun i kc hg => get?_append_left hg⟩

/-- Kernel creation touches only the kernel count of the environment. -/
theorem av_opencl_create_kernel_frame (g : GPUEnv) (env : AVOpenCLKernelEnv)
    (name : String) (ck : Nat → String → Option Nat) :
    (av_opencl_create_kernel g env name ck).1.init_count = g.init_count ∧
    (av_opencl_create_kernel g env name ck).1.is_user_created = g.is_user_created ∧
    (av_opencl_create_kernel g env name ck).1.kernel_code = g.kernel_code := by
  unfold av_opencl_create_kernel
  repeat' split
  all_goals exact ⟨rfl, rfl, rfl⟩

/-- Kernel release touches only the kernel count of the environment and
emits only a kernel release event. -/
theorem av_opencl_release_kernel_frame (g : GPUEnv) (env : AVOpenCLKernelEnv) :
    (av_opencl_release_kernel g env).1.init_count = g.init_count ∧
    (av_opencl_release_kernel g env).1.is_user_created = g.is_user_created ∧
    (av_opencl_release_kernel g env).1.kernel_code = g.kernel_code ∧
    (∀ e ∈ (av_opencl_release_kernel g env).2.2, e.isEnvRelease = false) := by
  unfold av_opencl_release_kernel
  split
  · exact ⟨rfl, rfl, rfl, by simp⟩
  · exact ⟨rfl, rfl, rfl, by simp [CLEvent.isEnvRelease]⟩

/-- Contribution of one call to init_count: one for a successful init. -/
def initDelta (op : Op) (r : Int) : Int := if op.isInit && r == 0 then 1 else 0

/-- Contribution of one call to init_count: minus one for an uninit. -/
def uninitDelta (op : Op) : Int := if op.isUninit then 1 else 0

/-- Umbrella facts of one step: the init_count accounting; environment
resources are released only by an uninit on a non-user-created
environment whose decremented count and kernel count are both at most 0;
the user-created flag is never cleared; and a compiled source entry is
never changed. -/
theorem step_spec {mem : Nat → String} {w : World} {op : Op} {w' : World} {r : Int}
    {evs : List CLEvent} (h : step mem w op = some (w', r, evs)) :
    w'.env.init_count = w.env.init_count + initDelta op r - uninitDelta op ∧
    (∀ e ∈ evs, e.isEnvRelease = true →
       op.isUninit = true ∧ w.env.is_user_created = false ∧
       w.env.init_count - 1 ≤ 0 ∧ w.env.kernel_count ≤ 0) ∧
    (w.env.is_user_created = true → w'.env.is_user_created = true) ∧
    (∀ i kc, w.env.kernel_code.get? i = some kc → kc.is_compiled = true →
       w'.env.kernel_code.get? i = some kc) := by
  cases op with
  | init optP optD ext io co =>
    simp only [step] at h
    split at h
    · exact Option.noConfusion h
    · rename_i t g1 r1 evs1 heq
      simp only [Option.some_inj, Prod.mk.injEq] at h
      obtain ⟨rfl, rfl, rfl⟩ := h
      obtain ⟨hic, hr, hkc, hevs, humono, huser, hcode⟩ := av_opencl_init_spec heq
      refine ⟨?_, ?_, fun hu => humono hu, fun i kc hg hc => hcode i kc hg hc⟩
      · show g1.init_count = w.env.init_count + initDelta (Op.init optP optD ext io co) r1 -
          uninitDelta (Op.init optP optD ext io co)
        rw [hic]
        simp only [initDelta, uninitDelta, Op.isInit, Op.isUninit, Bool.true_and,
                   if_false, Bool.false_eq_true]
        by_cases hr0 : r1 = 0 <;> simp [hr0]
      · intro e he ht
        rw [hevs e he] at ht
        exact Bool.noConfusion ht
  | uninit =>
    simp only [step] at h
    simp only [Option.some_inj, Prod.mk.injEq] at h
    obtain ⟨rfl, rfl, rfl⟩ := h
    obtain ⟨hdec, hkc, huser, hcode⟩ := av_opencl_uninit_dec w.env
    refine ⟨?_, ?_, ?_, ?_⟩
    · show (av_opencl_uninit w.env).1.init_count = w.env.init_count + initDelta Op.uninit 0 -
        uninitDelta Op.uninit
      simp only [initDelta, uninitDelta, Op.isInit, Op.isUninit, Bool.false_and, if_true,
                 Bool.false_eq_true, if_false]
      omega
    · intro e he ht
      by_cases hu : w.env.is_user_created = true
      · rw [av_opencl_uninit_skip (Or.inl hu)] at he
        exact absurd he (by simp)
      · by_cases hlive : 0 < w.env.init_count - 1 ∨ 0 < w.env.kernel_count
        · rw [av_opencl_uninit_skip (Or.inr hlive)] at he
          exact absurd he (by simp)
        · push_neg at hlive
          exact ⟨rfl, by simpa using hu, hlive.1, hlive.2⟩
    · intro hu
      show (av_opencl_uninit w.env).1.is_user_created = true
      rw [huser]
      exact hu
    · intro i kc hg hc
      show (av_opencl_uninit w.env).1.kernel_code.get? i = some kc
      rw [hcode]
      exact hg
  | registerSource code =>
    simp only [step] at h
    simp only [Option.some_inj, Prod.mk.injEq] at h
    obtain ⟨rfl, rfl, rfl⟩ := h
    obtain ⟨hic, hkc, huser, hcode⟩ := av_opencl_register_kernel_code_spec w.env code
    refine ⟨?_, by simp, ?_, fun i kc hg _ => hcode i kc hg⟩
    · show (av_opencl_register_kernel_code w.env code).1.init_count =
        w.env.init_count + initDelta (Op.registerSource code) (av_opencl_register_kernel_code w.env code).2 -
        uninitDelta (Op.registerSource code)
      simp only [initDelta, uninitDelta, Op.isInit, Op.isUninit, Bool.false_and,
                 Bool.false_eq_true, if_false]
      omega
    · intro hu
      show (av_opencl_register_kernel_code w.env code).1.is_user_created = true
      rw [huser]
      exact hu
  | createKernel hi name ck =>
    simp only [step] at h
    split at h
    · exact Option.noConfusion h
    · rename_i kenv heq
      simp only [Option.some_inj, Prod.mk.injEq] at h
      obtain ⟨rfl, rfl, rfl⟩ := h
      obtain ⟨hic, huser, hcode⟩ := av_opencl_create_kernel_frame w.env kenv name ck
      refine ⟨?_, by simp, ?_, ?_⟩
      · show (av_opencl_create_kernel w.env kenv name ck).1.init_count =
          w.env.init_count + initDelta (Op.createKernel hi name ck) (av_opencl_create_kernel w.env kenv name ck).2.2 -
          uninitDelta (Op.createKernel hi name ck)
        simp only [initDelta, uninitDelta, Op.isInit, Op.isUninit, Bool.false_and,
                   Bool.false_eq_true, if_false]
        omega
      · intro hu
        show (av_opencl_create_kernel w.env kenv name ck).1.is_user_created = true
        rw [huser]
        exact hu
      · intro i kc hg _
        show (av_opencl_create_kernel w.env kenv name ck).1.kernel_code.get? i = some kc
        rw [hcode]
        exact hg
  | releaseKernel hi =>
    simp only [step] at h
    split at h
    · exact Option.noConfusion h
    · rename_i kenv heq
      simp only [Option.some_inj, Prod.mk.injEq] at h
      obtain ⟨rfl, rfl, rfl⟩ := h
      obtain ⟨hic, huser, hcode, hevs⟩ := av_opencl_release_kernel_frame w.env kenv
      refine ⟨?_, ?_, ?_, ?_⟩
      · show (av_opencl_release_kernel w.env kenv).1.init_count =
          w.env.init_count + initDelta (Op.releaseKernel hi) 0 - uninitDelta (Op.releaseKernel hi)
        simp only [initDelta, uninitDelta, Op.isInit, Op.isUninit, Bool.false_and,
                   Bool.false_eq_true, if_false]
        omega
      · intro e he ht
        rw [hevs e he] at ht
        exact Bool.noConfusion ht
      · intro hu
        show (av_opencl_release_kernel w.env kenv).1.is_user_created = true
        rw [huser]
        exact hu
      · intro i kc hg _
        show (av_opencl_release_kernel w.env kenv).1.kernel_code.get? i = some kc
        rw [hcode]
        exact hg

theorem successfulInits_nil : successfulInits [] [] = 0 := rfl

theorem successfulInits_cons (op : Op) (ops : List Op) (r : Int) (rets : List Int) :
    (successfulInits (op :: ops) (r :: rets) : Int) =
      initDelta op r + successfulInits ops rets := by
  simp only [successfulInits, initDelta, List.zip_cons_cons, List.filter_cons]
  by_cases hb : (op.isInit && r == 0) = true
  · simp [hb]; ring
  · simp [hb]

theorem numUninits_cons (op : Op) (ops : List Op) :
    (numUninits (op :: ops) : Int) = uninitDelta op + numUninits ops := by
  simp only [numUninits, uninitDelta, List.filter_cons]
  by_cases hb : op.isUninit = true
  · simp [hb]; ring
  · simp [hb]

/-- The init reference count of the final state of a run equals the
initial one plus the number of successful init calls minus the number of
uninit calls. -/
theorem runOps_count {mem : Nat → String} :
    ∀ (ops : List Op) (w : World) {wf : World} {rets : List Int} {evs : List CLEvent},
      runOps mem w ops = some (wf, rets, evs) →
      wf.env.init_count = w.env.init_count +
        (successfulInits ops rets : Int) - (numUninits ops : Int) := by
  intro ops
  induction ops with
  | nil =>
    intro w wf rets evs h
    simp only [runOps, Option.some_inj, Prod.mk.injEq] at h
    obtain ⟨rfl, rfl, rfl⟩ := h
    simp [successfulInits, numUninits]
  | cons op rest ih =>
    intro w wf rets evs h
    simp only [runOps] at h
    split at h
    · exact Option.noConfusion h
    · rename_i t w1 r1 evs1 heq
      split at h
      · exact Option.noConfusion h
      · rename_i t2 wf2 rs2 evs2 heq2
        simp only [Option.some_inj, Prod.mk.injEq] at h
        obtain ⟨rfl, rfl, rfl⟩ := h
        have hstep := (step_spec heq).1
        have hrest := ih w1 heq2
        rw [successfulInits_cons, numUninits_cons, hrest, hstep]
        ring

/-- A run containing no uninit call emits no environment release. -/
theorem runOps_no_release_without_uninit {mem : Nat → String} :
    ∀ (ops : List Op) (w : World) {wf : World} {rets : List Int} {evs : List CLEvent},
      runOps mem w ops = some (wf, rets, evs) →
      (∀ op ∈ ops, op.isUninit = false) →
      ∀ e ∈ evs, e.isEnvRelease = false := by
  intro ops
  induction ops with
  | nil =>
    intro w wf rets evs h _
    simp only [runOps, Option.some_inj, Prod.mk.injEq] at h
    obtain ⟨rfl, rfl, rfl⟩ := h
    simp
  | cons op rest ih =>
    intro w wf rets evs h hops
    simp only [runOps] at h
    split at h
    · exact Option.noConfusion h
    · rename_i t w1 r1 evs1 heq
      split at h
      · exact Option.noConfusion h
      · rename_i t2 wf2 rs2 evs2 heq2
        simp only [Option.some_inj, Prod.mk.injEq] at h
        obtain ⟨rfl, rfl, rfl⟩ := h
        intro e he
        rcases List.mem_append.mp he with he1 | he2
        · by_contra hrel
          have hrel2 : e.isEnvRelease = true := by
            cases hm : e.isEnvRelease
            · exact absurd hm hrel
            · rfl
          have := ((step_spec heq).2.1 e he1 hrel2).1
          rw [hops op (List.mem_cons_self op rest)] at this
          exact Bool.noConfusion this
        · exact ih w1 heq2 (fun o ho => hops o (List.mem_cons_of_mem op ho)) e he2

/-- Splitting a run at an append boundary. -/
theorem runOps_append {mem : Nat → String} :
    ∀ (l1 : List Op) (l2 : List Op) (w : World) {wf : World} {rets : List Int}
      {evs : List CLEvent},
      runOps mem w (l1 ++ l2) = some (wf, rets, evs) →
      ∃ w1 r1 e1 r2 e2, runOps mem w l1 = some (w1, r1, e1) ∧
        runOps mem w1 l2 = some (wf, r2, e2) ∧ rets = r1 ++ r2 ∧ evs = e1 ++ e2 := by
  intro l1
  induction l1 with
  | nil =>
    intro l2 w wf rets evs h
    exact ⟨w, [], [], rets, evs, rfl, h, rfl, rfl⟩
  | cons op rest ih =>
    intro l2 w wf rets evs h
    rw [List.cons_append] at h
    simp only [runOps] at h
    split at h
    · exact Option.noConfusion h
    · rename_i t w1 r1 evs1 heq
      split at h
      · exact Option.noConfusion h
      · rename_i t2 wf2 rs2 evs2 heq2
        simp only [Option.some_inj, Prod.mk.injEq] at h
        obtain ⟨rfl, rfl, rfl⟩ := h
        obtain ⟨wm, ra, ea, rb, eb, hA, hB, hr, hev⟩ := ih l2 w1 heq2
        refine ⟨wm, r1 :: ra, evs1 ++ ea, rb, eb, ?_, hB, ?_, ?_⟩
        · simp only [runOps, heq, hA]
        · rw [hr]; simp
        · rw [hev, List.append_assoc]

/-- The number of return codes of a run equals the number of calls. -/
theorem runOps_rets_length {mem : Nat → String} :
    ∀ (ops : List Op) (w : World) {wf : World} {rets : List Int} {evs : List CLEvent},
      runOps mem w ops = some (wf, rets, evs) → rets.length = ops.length := by
  intro ops
  induction ops with
  | nil =>
    intro w wf rets evs h
    simp only [runOps, Option.some_inj, Prod.mk.injEq] at h
    obtain ⟨rfl, rfl, rfl⟩ := h
    rfl
  | cons op rest ih =>
    intro w wf rets evs h
    simp only [runOps] at h
    split at h
    · exact Option.noConfusion h
    · rename_i t w1 r1 evs1 heq
      split at h
      · exact Option.noConfusion h
      · rename_i t2 wf2 rs2 evs2 heq2
        simp only [Option.some_inj, Prod.mk.injEq] at h
        obtain ⟨rfl, rfl, rfl⟩ := h
        simp [ih w1 heq2]

/-- A pure uninit phase starting with the reference count above its
length emits nothing at all. -/
theorem runOps_uninit_silent {mem : Nat → String} :
    ∀ (k : Nat) (w : World) {wf : World} {rets : List Int} {evs : List CLEvent},
      (k : Int) < w.env.init_count →
      runOps mem w (List.replicate k Op.uninit) = some (wf, rets, evs) → evs = [] := by
  intro k
  induction k with
  | zero =>
    intro w wf rets evs _ h
    simp only [List.replicate, runOps, Option.some_inj, Prod.mk.injEq] at h
    exact h.2.2.symm
  | succ n ih =>
    intro w wf rets evs hlt h
    rw [List.replicate_succ] at h
    simp only [runOps, step] at h
    split at h
    · exact Option.noConfusion h
    · rename_i t wf2 rs2 evs2 heq
      simp only [Option.some_inj, Prod.mk.injEq] at h
      obtain ⟨rfl, rfl, rfl⟩ := h
      have hskip : av_opencl_uninit w.env = ({w.env with init_count := w.env.init_count - 1}, []) := by
        by_cases hu : w.env.is_user_created = true
        · exact av_opencl_uninit_skip (Or.inl hu)
        · refine av_opencl_uninit_skip (Or.inr (Or.inl ?_))
          have : ((n + 1 : Nat) : Int) < w.env.init_count := hlt
          push_cast at this
          omega
      have hevs2 : evs2 = [] := by
        refine ih _ ?_ heq
        have hd := (av_opencl_uninit_dec w.env).1
        have : ((n + 1 : Nat) : Int) < w.env.init_count := hlt
        push_cast at this ⊢
        simp only [World.env] at hd ⊢
        omega
      rw [hskip, hevs2]
      simp

/-- C2: when the environment is externally supplied (user-created),
av_opencl_uninit only decrements the reference count: it never invokes
release on the context, command queue, programs or cached device list
(no events at all), and every field other than init_count is unchanged,
whatever the value of the reference count. -/
theorem C2_uninit_user_created_frame (g : GPUEnv) (hu : g.is_user_created = true) :
    av_opencl_uninit g = ({g with init_count := g.init_count - 1}, []) :=
  av_opencl_uninit_skip (Or.inl hu)

/-- C2 witness: the frame property at a concrete user-created
environment with reference count 5 and live handles. -/
theorem C2_uninit_user_created_frame_witness :
    av_opencl_uninit {GPUEnv.initial with is_user_created := true, context := 3,
                                          command_queue := 4, init_count := 5} =
      ({{GPUEnv.initial with is_user_created := true, context := 3,
                             command_queue := 4, init_count := 5} with
         init_count := ({GPUEnv.initial with is_user_created := true, context := 3,
                                             command_queue := 4,
                                             init_count := 5} : GPUEnv).init_count - 1}, []) :=
  C2_uninit_user_created_frame _ rfl

/-- C3: the error translator returns the table string for every status
code present in the table, but for a status code absent from the table
(such as 0) the lookup loop, whose bound is the byte size of the table
rather than its entry count, reads past the end of the table (undefined
behavior, modelled as none) instead of returning the fixed fallback
string; the intended entry-count bound would return the fallback. -/
theorem C3_opencl_errstr_lookup :
    opencl_err_msg.all (fun p => opencl_errstr p.1 == some p.2) = true ∧
    opencl_errstr 0 = none ∧
    opencl_errstr_intended 0 = "unknown error" := by
  refine ⟨by decide, by decide, by decide⟩

/-- C8: releasing a buffer through a NULL handle pointer releases
nothing and is a no-op, and releasing through a pointer to an empty
handle releases no OpenCL object and leaves the handle holding
nothing. -/
theorem C8_buffer_release_noop :
    av_opencl_buffer_release none = (none, []) ∧
    av_opencl_buffer_release (some 0) = (some 0, []) :=
  ⟨rfl, rfl⟩

/-- C6: with the source table already holding MAX_KERNEL_CODE_NUM (200)
entries, registering a not-yet-registered source fails with the capacity
error AVERROR(EINVAL) and leaves the table (and the whole environment)
unchanged; with MAX_KERNEL_NUM (500) kernels live, creating a kernel on
an empty handle with a valid name fails with the capacity error without
creating a kernel or changing the live count. -/
theorem C6_capacity_limits :
    (∀ (g : GPUEnv) (code : Nat), g.kernel_code.length = MAX_KERNEL_CODE_NUM →
       containsCode g.kernel_code code = false →
       av_opencl_register_kernel_code g code = (g, AVERROR_EINVAL)) ∧
    (∀ (g : GPUEnv) (env : AVOpenCLKernelEnv) (name : String) (ck : Nat → String → Option Nat),
       g.kernel_count = MAX_KERNEL_NUM → env.kernel = 0 →
       name.length + 1 ≤ AV_OPENCL_MAX_KERNEL_NAME_SIZE →
       av_opencl_create_kernel g env name ck = (g, env, AVERROR_EINVAL)) := by
  constructor
  · intro g code hlen _
    unfold av_opencl_register_kernel_code
    rw [if_pos (by omega)]
  · intro g env name ck hcount h0 hname
    unfold av_opencl_create_kernel
    rw [if_neg (not_lt.mpr hname), if_neg (by simp [h0]), if_pos (by rw [hcount])]

/-- C6 witness: the register limit at a concrete full table and a fresh
source identity, and the kernel limit at a concrete environment with 500
live kernels. -/
theorem C6_capacity_limits_witness :
    av_opencl_register_kernel_code
        {GPUEnv.initial with
           kernel_code := (List.range 200).map (fun i => { is_compiled := true,
                                                           kernel_string := i })} 777 =
      ({GPUEnv.initial with
          kernel_code := (List.range 200).map (fun i => { is_compiled := true,
                                                          kernel_string := i })},
       AVERROR_EINVAL) ∧
    av_opencl_create_kernel {GPUEnv.initial with kernel_count := 500, program_count := 1}
        emptyKernelEnv "f" (fun _ _ => none) =
      ({GPUEnv.initial with kernel_count := 500, program_count := 1}, emptyKernelEnv,
       AVERROR_EINVAL) :=
  ⟨C6_capacity_limits.1 _ 777 (by simp [MAX_KERNEL_CODE_NUM]) (by decide),
   C6_capacity_limits.2 _ emptyKernelEnv "f" (fun _ _ => none) rfl rfl (by decide)⟩

/-- C7 counterexample: with the source table full (200 entries) and the
source identity 0 already present, a second registration of identity 0
returns the capacity error AVERROR(EINVAL), not success, because the
capacity check runs before the duplicate scan; this refutes the claim
that duplicate registration succeeds for every table state containing
the identity. -/
theorem C7_counterexample_duplicate_at_capacity :
    containsCode ((List.range 200).map
        (fun i => { is_compiled := true, kernel_string := i } : Nat → KernelCode)) 0 = true ∧
    (av_opencl_register_kernel_code
        {GPUEnv.initial with
           kernel_code := (List.range 200).map (fun i => { is_compiled := true,
                                                           kernel_string := i })} 0).2 =
      AVERROR_EINVAL ∧
    AVERROR_EINVAL ≠ 0 := by
  refine ⟨by decide, ?_, by decide⟩
  unfold av_opencl_register_kernel_code
  rw [if_pos (by simp [MAX_KERNEL_CODE_NUM])]

/-- C7 amended: registering an already-present source identity is a
no-op success whenever the table is below capacity; at a full table the
capacity check fires first and even a duplicate registration returns the
capacity error. -/
theorem C7_amended_duplicate_below_capacity (g : GPUEnv) (code : Nat)
    (hlen : g.kernel_code.length < MAX_KERNEL_CODE_NUM)
    (hmem : containsCode g.kernel_code code = true) :
    av_opencl_register_kernel_code g code = (g, 0) := by
  unfold av_opencl_register_kernel_code
  rw [if_neg (by omega), if_pos hmem]

/-- C7 witness: the amended idempotence at a concrete one-entry table. -/
theorem C7_amended_duplicate_below_capacity_witness :
    av_opencl_register_kernel_code
        {GPUEnv.initial with kernel_code := [{ is_compiled := false, kernel_string := 5 }]} 5 =
      ({GPUEnv.initial with kernel_code := [{ is_compiled := false, kernel_string := 5 }]}, 0) :=
  C7_amended_duplicate_below_capacity _ 5 (by decide) (by decide)

/-- C4 counterexample: a write of one 4-byte plane at destination offset
4 into a buffer declared 4 bytes large passes both validation checks
(the size check ignores the offset), proceeds to map a region of
4 + 4 = 8 bytes and returns success, although the plane data accounting
for the offset exceeds the declared capacity; this refutes the claim
that such a call is rejected with a validation error before mapping. -/
theorem C4_counterexample_offset_ignored :
    sumPlanes [4] (intToU32 1) + 4 > (4 : Int) ∧
    av_opencl_buffer_write_image 4 4 [4] 1 true true =
      { ret := 0, mapped := true, map_size := 8 } := by
  constructor
  · decide
  · rfl

/-- C4 amended: the plane-count check rejects more than 8 planes before
anything else; the size check rejects, before mapping, exactly when the
plane-size sum alone (not accounting for the destination offset)
exceeds the declared capacity; every call passing both checks maps the
buffer. -/
theorem C4_amended_write_image_checks (cl_buffer_size : Nat) (dst_cl_offset : Int)
    (plane_size : List Int) (plane_num : Int) (mapOk unmapOk : Bool) :
    (8 < intToU32 plane_num →
       av_opencl_buffer_write_image cl_buffer_size dst_cl_offset plane_size plane_num
         mapOk unmapOk = { ret := AVERROR_EINVAL, mapped := false, map_size := 0 }) ∧
    (intToU32 plane_num ≤ 8 →
       cl_buffer_size < intToU64 (sumPlanes plane_size (intToU32 plane_num)) →
       av_opencl_buffer_write_image cl_buffer_size dst_cl_offset plane_size plane_num
         mapOk unmapOk = { ret := AVERROR_EINVAL, mapped := false, map_size := 0 }) ∧
    (intToU32 plane_num ≤ 8 →
       intToU64 (sumPlanes plane_size (intToU32 plane_num)) ≤ cl_buffer_size →
       (av_opencl_buffer_write_image cl_buffer_size dst_cl_offset plane_size plane_num
         mapOk unmapOk).mapped = true) := by
  refine ⟨?_, ?_, ?_⟩
  · intro h8
    unfold av_opencl_buffer_write_image
    rw [if_pos h8]
  · intro h8 hbig
    unfold av_opencl_buffer_write_image
    rw [if_neg (not_lt.mpr h8)]
    dsimp only
    rw [if_pos hbig]
  · intro h8 hsmall
    unfold av_opencl_buffer_write_image
    rw [if_neg (not_lt.mpr h8)]
    dsimp only
    rw [if_neg (not_lt.mpr hsmall)]
    cases mapOk <;> cases unmapOk <;> rfl

/-- C4 witness: the amended checks at concrete inputs: nine planes are
rejected; a one-plane write of 3 bytes into a 2-byte buffer is rejected
before mapping; a one-plane write of 3 bytes into a 10-byte buffer at
offset 100 passes validation and maps. -/
theorem C4_amended_write_image_checks_witness :
    av_opencl_buffer_write_image 64 0 [1, 1, 1, 1, 1, 1, 1, 1, 1] 9 true true =
      { ret := AVERROR_EINVAL, mapped := false, map_size := 0 } ∧
    av_opencl_buffer_write_image 2 0 [3] 1 true true =
      { ret := AVERROR_EINVAL, mapped := false, map_size := 0 } ∧
    (av_opencl_buffer_write_image 10 100 [3] 1 true true).mapped = true :=
  ⟨(C4_amended_write_image_checks 64 0 [1, 1, 1, 1, 1, 1, 1, 1, 1] 9 true true).1 (by decide),
   (C4_amended_write_image_checks 2 0 [3] 1 true true).2.1 (by decide) (by decide),
   (C4_amended_write_image_checks 10 100 [3] 1 true true).2.2 (by decide) (by decide)⟩

/-- C5 counterexample: a single Uninit call from the freshly initialized
state drives init_count to -1, because av_opencl_uninit decrements the
count unconditionally; this refutes the claim that init_count is
nonnegative in every reachable state, including after an Uninit not
matched by a prior successful Init. -/
theorem C5_counterexample_unmatched_uninit :
    (runOps (fun _ => "") (World.initial 0) [Op.uninit]).map
        (fun t => t.1.env.init_count) = some (-1) ∧ (-1 : Int) < 0 := by
  exact ⟨rfl, by decide⟩

/-- C5 amended: along every defined trace from the initial state,
init_count equals the number of successful Init calls minus the number
of Uninit calls; it is therefore nonnegative exactly in traces whose
Uninit calls do not outnumber the successful Inits, while a single
unmatched Uninit drives it to -1. -/
theorem C5_amended_init_count_accounting (mem : Nat → String) (n : Nat) (ops : List Op)
    (wf : World) (rets : List Int) (evs : List CLEvent)
    (h : runOps mem (World.initial n) ops = some (wf, rets, evs)) :
    wf.env.init_count = (successfulInits ops rets : Int) - (numUninits ops : Int) := by
  have hc := runOps_count ops (World.initial n) h
  have h0 : (World.initial n).env.init_count = 0 := rfl
  rw [h0] at hc
  omega

/-- C5 witness: the accounting at the concrete trace of one registration
followed by one uninit: zero successful inits, one uninit, final count
-1. -/
theorem C5_amended_init_count_accounting_witness :
    ({ env := {GPUEnv.initial with init_count := -1,
                                   kernel_code := [{ is_compiled := false, kernel_string := 3 }]},
       handles := [] } : World).env.init_count =
      (successfulInits [Op.registerSource 3, Op.uninit] [0, 0] : Int) -
      (numUninits [Op.registerSource 3, Op.uninit] : Int) :=
  C5_amended_init_count_accounting (fun _ => "") 0 [Op.registerSource 3, Op.uninit]
    { env := {GPUEnv.initial with init_count := -1,
                                  kernel_code := [{ is_compiled := false, kernel_string := 3 }]},
      handles := [] } [0, 0] [] (by rfl)

/-- C9: the user-created provenance flag, once set, is never cleared by
any operation (init, uninit, registration, kernel creation or release);
consequently every init on a user-created environment performs no device
enumeration and no context or queue creation (it emits no events at all)
and the environment retains the previously adopted platform, device,
context and command queue handles and the device class. -/
theorem C9_user_created_sticky :
    (∀ (mem : Nat → String) (w : World) (op : Op) (w' : World) (r : Int) (evs : List CLEvent),
       step mem w op = some (w', r, evs) → w.env.is_user_created = true →
       w'.env.is_user_created = true) ∧
    (∀ (mem : Nat → String) (g : GPUEnv) (optP optD : Int) (ext : Option AVOpenCLExternalEnv)
       (io : InitOracle) (co : CompileOracle) (g' : GPUEnv) (r : Int) (evs : List CLEvent),
       g.is_user_created = true →
       av_opencl_init mem g optP optD ext io co = some (g', r, evs) →
       evs = [] ∧ g'.is_user_created = true ∧ g'.platform_id = g.platform_id ∧
       g'.device_id = g.device_id ∧ g'.context = g.context ∧
       g'.command_queue = g.command_queue ∧ g'.device_type = g.device_type) := by
  constructor
  · intro mem w op w' r evs h hu
    exact (step_spec h).2.2.1 hu
  · intro mem g optP optD ext io co g' r evs hu h
    obtain ⟨_, _, _, _, humono, huser, _⟩ := av_opencl_init_spec h
    obtain ⟨hevs, hpid, hdid, hctx, hq, hdt⟩ := huser hu
    exact ⟨hevs, humono hu, hpid, hdid, hctx, hq, hdt⟩

/-- C9 witness: a second init with no descriptor on a concrete adopted
environment emits nothing and retains the adopted handles, and a step of
uninit keeps the flag set. -/
theorem C9_user_created_sticky_witness :
    (([] : List CLEvent) = [] ∧
     ({GPUEnv.initial with is_user_created := true, platform_id := 5, device_id := 6,
                           context := 7, command_queue := 8, device_type := 2,
                           kernel_code := [{ is_compiled := true, kernel_string := 3 }],
                           device_idx := -1, platform_idx := -1,
                           init_count := 1} : GPUEnv).is_user_created = true ∧
     ({GPUEnv.initial with is_user_created := true, platform_id := 5, device_id := 6,
                           context := 7, command_queue := 8, device_type := 2,
                           kernel_code := [{ is_compiled := true, kernel_string := 3 }],
                           device_idx := -1, platform_idx := -1,
                           init_count := 1} : GPUEnv).platform_id =
       ({GPUEnv.initial with is_user_created := true, platform_id := 5, device_id := 6,
                             context := 7, command_queue := 8, device_type := 2,
                             kernel_code := [{ is_compiled := true,
                                               kernel_string := 3 }]} : GPUEnv).platform_id ∧
     ({GPUEnv.initial with is_user_created := true, platform_id := 5, device_id := 6,
                           context := 7, command_queue := 8, device_type := 2,
                           kernel_code := [{ is_compiled := true, kernel_string := 3 }],
                           device_idx := -1, platform_idx := -1,
                           init_count := 1} : GPUEnv).device_id =
       ({GPUEnv.initial with is_user_created := true, platform_id := 5, device_id := 6,
                             context := 7, command_queue := 8, device_type := 2,
                             kernel_code := [{ is_compiled := true,
                                               kernel_string := 3 }]} : GPUEnv).device_id ∧
     ({GPUEnv.initial with is_user_created := true, platform_id := 5, device_id := 6,
                           context := 7, command_queue := 8, device_type := 2,
                           kernel_code := [{ is_compiled := true, kernel_string := 3 }],
                           device_idx := -1, platform_idx := -1,
                           init_count := 1} : GPUEnv).context =
       ({GPUEnv.initial with is_user_created := true, platform_id := 5, device_id := 6,
                             context := 7, command_queue := 8, device_type := 2,
                             kernel_code := [{ is_compiled := true,
                                               kernel_string := 3 }]} : GPUEnv).context ∧
     ({GPUEnv.initial with is_user_created := true, platform_id := 5, device_id := 6,
                           context := 7, command_queue := 8, device_type := 2,
                           kernel_code := [{ is_compiled := true, kernel_string := 3 }],
                           device_idx := -1, platform_idx := -1,
                           init_count := 1} : GPUEnv).command_queue =
       ({GPUEnv.initial with is_user_created := true, platform_id := 5, device_id := 6,
                             context := 7, command_queue := 8, device_type := 2,
                             kernel_code := [{ is_compiled := true,
                                               kernel_string := 3 }]} : GPUEnv).command_queue ∧
     ({GPUEnv.initial with is_user_created := true, platform_id := 5, device_id := 6,
                           context := 7, command_queue := 8, device_type := 2,
                           kernel_code := [{ is_compiled := true, kernel_string := 3 }],
                           device_idx := -1, platform_idx := -1,
                           init_count := 1} : GPUEnv).device_type =
       ({GPUEnv.initial with is_user_created := true, platform_id := 5, device_id := 6,
                             context := 7, command_queue := 8, device_type := 2,
                             kernel_code := [{ is_compiled := true,
                                               kernel_string := 3 }]} : GPUEnv).device_type) :=
  C9_user_created_sticky.2 (fun _ => "") _ (-1) (-1) none
    { device_list_result := Except.error CLFail.external, context_result := none,
      queue_result := none }
    { create_result := none, build_ok := false } _ 0 [] rfl (by rfl)

/-- Marking leaves nothing uncompiled. -/
theorem uncompiledLen_markCompiled (mem : Nat → String) (l : List KernelCode) :
    uncompiledLen mem (markCompiled l) = 0 := by
  induction l with
  | nil => rfl
  | cons kc rest ih =>
    have hmk : (markOne kc).is_compiled = true := by
      unfold markOne
      split
      · assumption
      · rfl
    simp [markCompiled, uncompiledLen, hmk, ih]

/-- C10: when a compile pass fails after concatenating the uncompiled
fragments (program creation or build error, reported as a negative
return), every table entry is nevertheless already marked compiled, so
nothing is left for a later pass to resubmit, while program_count is
unchanged; moreover no operation of the subsystem ever reverts a
compiled entry, so a fragment once marked compiled is never part of a
later concatenation. -/
theorem C10_failed_compile_marks_compiled :
    (∀ (mem : Nat → String) (g : GPUEnv) (co : CompileOracle) (g' : GPUEnv) (r : Int)
       (evs : List CLEvent),
       compile_kernel_file mem g co = some (g', r, evs) → r < 0 →
       g'.kernel_code.all (fun kc => kc.is_compiled) = true ∧
       g'.program_count = g.program_count ∧
       uncompiledLen mem g'.kernel_code = 0) ∧
    (∀ (mem : Nat → String) (w : World) (op : Op) (w' : World) (r : Int) (evs : List CLEvent),
       step mem w op = some (w', r, evs) →
       ∀ i kc, w.env.kernel_code.get? i = some kc → kc.is_compiled = true →
         w'.env.kernel_code.get? i = some kc) := by
  constructor
  · intro mem g co g' r evs h hneg
    obtain ⟨_, _, _, _, _, _, _, _, _, _, _, _, hfail⟩ := compile_kernel_file_spec h
    obtain ⟨hmarked, hcount⟩ := hfail hneg
    refine ⟨?_, hcount, ?_⟩
    · rw [hmarked]
      exact List.all_eq_true.mpr (fun kc hkc => by simpa using markCompiled_all kc hkc)
    · rw [hmarked]
      exact uncompiledLen_markCompiled mem g.kernel_code
  · intro mem w op w' r evs h i kc hg hc
    exact (step_spec h).2.2.2 i kc hg hc

/-- C10 witness: a concrete failing pass (program creation fails) on a
one-entry table marks the entry compiled with program_count unchanged,
and a register step preserves a compiled entry. -/
theorem C10_failed_compile_marks_compiled_witness :
    [({ is_compiled := true, kernel_string := 0 } : KernelCode)].all
        (fun kc => kc.is_compiled) = true ∧
    (({GPUEnv.initial with kernel_code := [{ is_compiled := true, kernel_string := 0 }],
                           programs := (List.replicate 200 0).set 0 0} : GPUEnv).program_count =
      ({GPUEnv.initial with
          kernel_code := [{ is_compiled := false, kernel_string := 0 }]} : GPUEnv).program_count) ∧
    uncompiledLen (fun _ => "x")
      [({ is_compiled := true, kernel_string := 0 } : KernelCode)] = 0 ∧
    ({ env := {GPUEnv.initial with
                 kernel_code := [{ is_compiled := true, kernel_string := 5 },
                                 { is_compiled := false, kernel_string := 6 }]},
       handles := [] } : World).env.kernel_code.get? 0 =
      some { is_compiled := true, kernel_string := 5 } := by
  have h1 := C10_failed_compile_marks_compiled.1 (fun _ => "x")
    {GPUEnv.initial with kernel_code := [{ is_compiled := false, kernel_string := 0 }]}
    { create_result := none, build_ok := false }
    {GPUEnv.initial with kernel_code := [{ is_compiled := true, kernel_string := 0 }],
                         programs := (List.replicate 200 0).set 0 0}
    AVERROR_EXTERNAL [] (by rfl) (by decide)
  have h2 := C10_failed_compile_marks_compiled.2 (fun _ => "x")
    { env := {GPUEnv.initial with
                kernel_code := [{ is_compiled := true, kernel_string := 5 }]}, handles := [] }
    (Op.registerSource 6)
    { env := {GPUEnv.initial with
                kernel_code := [{ is_compiled := true, kernel_string := 5 },
                                { is_compiled := false, kernel_string := 6 }]}, handles := [] }
    0 [] (by rfl) 0 { is_compiled := true, kernel_string := 5 } (by rfl) rfl
  exact ⟨h1.1, h1.2.1, h1.2.2, h2⟩

/-- An init call is not an uninit call. -/
theorem Op.isInit_isUninit {op : Op} (h : op.isInit = true) : op.isUninit = false := by
  cases op
  case uninit => exact Bool.noConfusion h
  all_goals rfl

/-- A run of init calls that all returned 0 counts them all. -/
theorem successfulInits_all :
    ∀ (ops : List Op) (rets : List Int), rets.length = ops.length →
      (∀ op ∈ ops, op.isInit = true) → (∀ r ∈ rets, r = 0) →
      successfulInits ops rets = ops.length := by
  intro ops
  induction ops with
  | nil =>
    intro rets _ _ _
    cases rets with
    | nil => rfl
    | cons r rs => simp [successfulInits]
  | cons op rest ih =>
    intro rets hlen hops hrets
    cases rets with
    | nil => simp at hlen
    | cons r rs =>
      have hop : op.isInit = true := hops op (List.mem_cons_self op rest)
      have hr : r = 0 := hrets r (List.mem_cons_self r rs)
      simp only [successfulInits, List.zip_cons_cons, List.filter_cons, hop, hr]
      simp only [show ((0 : Int) == 0) = true from rfl, Bool.and_true, if_true,
                 List.length_cons]
      have := ih rs (by simpa using hlen) (fun o ho => hops o (List.mem_cons_of_mem op ho))
        (fun x hx => hrets x (List.mem_cons_of_mem r hx))
      simp only [successfulInits] at this
      omega

/-- A run without uninit calls has no uninits to count. -/
theorem numUninits_zero : ∀ (ops : List Op), (∀ op ∈ ops, op.isUninit = false) →
    numUninits ops = 0 := by
  intro ops
  induction ops with
  | nil => intro _; rfl
  | cons op rest ih =>
    intro hops
    simp only [numUninits, List.filter_cons, hops op (List.mem_cons_self op rest)]
    simpa [numUninits] using ih (fun o ho => hops o (List.mem_cons_of_mem op ho))

/-- C1: for the global environment, the programs, the command queue, the
context and the cached device list are released only by an uninit step,
on a non-user-created environment, at an instant where the decremented
reference count has reached 0 (is at most 0) and no kernel is live (the
kernel count is at most 0); an uninit made while a kernel is outstanding
decrements the count and releases nothing; and a trace of N successful
init calls from a count of 0 followed by fewer than N uninit calls emits
no release of any of these resources. -/
theorem C1_release_gating :
    (∀ (mem : Nat → String) (w : World) (op : Op) (w' : World) (r : Int) (evs : List CLEvent),
       step mem w op = some (w', r, evs) →
       ∀ e ∈ evs, e.isEnvRelease = true →
         op.isUninit = true ∧ w.env.is_user_created = false ∧
         w.env.init_count - 1 ≤ 0 ∧ w.env.kernel_count ≤ 0) ∧
    (∀ g : GPUEnv, 0 < g.kernel_count →
       av_opencl_uninit g = ({g with init_count := g.init_count - 1}, [])) ∧
    (∀ (mem : Nat → String) (w : World) (inits : List Op) (k : Nat) (wf : World)
       (rets : List Int) (evs : List CLEvent),
       w.env.init_count = 0 →
       (∀ op ∈ inits, op.isInit = true) →
       (∀ r ∈ rets, r = 0) →
       k < inits.length →
       runOps mem w (inits ++ List.replicate k Op.uninit) = some (wf, rets, evs) →
       ∀ e ∈ evs, e.isEnvRelease = false) := by
  refine ⟨?_, ?_, ?_⟩
  · intro mem w op w' r evs h e he ht
    exact (step_spec h).2.1 e he ht
  · intro g hk
    exact av_opencl_uninit_skip (Or.inr (Or.inr hk))
  · intro mem w inits k wf rets evs h0 hinit hrets hk h
    obtain ⟨w1, r1, e1, r2, e2, hA, hB, hrr, hee⟩ := runOps_append inits _ w h
    have he1 : ∀ e ∈ e1, e.isEnvRelease = false :=
      runOps_no_release_without_uninit inits w hA
        (fun op hop => Op.isInit_isUninit (hinit op hop))
    have hlen1 : r1.length = inits.length := runOps_rets_length inits w hA
    have hS : successfulInits inits r1 = inits.length :=
      successfulInits_all inits r1 hlen1 hinit
        (fun x hx => hrets x (by rw [hrr]; exact List.mem_append_left r2 hx))
    have hU : numUninits inits = 0 :=
      numUninits_zero inits (fun op hop => Op.isInit_isUninit (hinit op hop))
    have hc1 := runOps_count inits w hA
    rw [h0, hS, hU] at hc1
    have he2 : e2 = [] := by
      refine runOps_uninit_silent k w1 ?_ hB
      rw [hc1]
      push_cast
      omega
    intro e he
    rw [hee] at he
    rcases List.mem_append.mp he with h1 | h2
    · exact he1 e h1
    · rw [he2] at h2
      exact absurd h2 (by simp)

/-- C1 witness: the gating applied at a concrete releasing uninit step
(context 9 released at count 1 going to 0 with no live kernel), at a
concrete uninit with one kernel outstanding (no release), and at a
concrete trace of two successful inits followed by one uninit (whose
only events are the context and queue creations, not releases). -/
theorem C1_release_gating_witness :
    (Op.uninit.isUninit = true ∧
     ({ env := {GPUEnv.initial with context := 9, init_count := 1},
        handles := [] } : World).env.is_user_created = false ∧
     ({ env := {GPUEnv.initial with context := 9, init_count := 1},
        handles := [] } : World).env.init_count - 1 ≤ 0 ∧
     ({ env := {GPUEnv.initial with context := 9, init_count := 1},
        handles := [] } : World).env.kernel_count ≤ 0) ∧
    av_opencl_uninit {GPUEnv.initial with kernel_count := 1, init_count := 1, context := 9} =
      ({{GPUEnv.initial with kernel_count := 1, init_count := 1, context := 9} with
          init_count := ({GPUEnv.initial with kernel_count := 1, init_count := 1,
                                              context := 9} : GPUEnv).init_count - 1}, []) ∧
    (CLEvent.createContext 11).isEnvRelease = false := by
  refine ⟨?_, ?_, ?_⟩
  · exact C1_release_gating.1 (fun _ => "")
      { env := {GPUEnv.initial with context := 9, init_count := 1}, handles := [] }
      Op.uninit
      { env := GPUEnv.initial, handles := [] } 0 [CLEvent.releaseContext 9] (by rfl)
      (CLEvent.releaseContext 9) (by simp) (by rfl)
  · exact C1_release_gating.2.1 _ (by decide)
  · exact C1_release_gating.2.2 (fun _ => "")
      { env := {GPUEnv.initial with
                  kernel_code := [{ is_compiled := true, kernel_string := 7 }],
                  device_list := [{ platform_id := 1,
                                    devices := [{ device_id := 2, device_type := 4 }] }]},
        handles := [] }
      [Op.init 0 0 none { device_list_result := Except.ok [], context_result := some 11,
                          queue_result := some 12 }
                        { create_result := some 99, build_ok := true },
       Op.init 0 0 none { device_list_result := Except.ok [], context_result := some 11,
                          queue_result := some 12 }
                        { create_result := some 99, build_ok := true }]
      1
      { env := {GPUEnv.initial with
                  kernel_code := [{ is_compiled := true, kernel_string := 7 }],
                  device_list := [{ platform_id := 1,
                                    devices := [{ device_id := 2, device_type := 4 }] }],
                  platform_id := 1, device_id := 2, device_type := 4, context := 11,
                  command_queue := 12, init_count := 1},
        handles := [] }
      [0, 0, 0] [CLEvent.createContext 11, CLEvent.createCommandQueue 12]
      rfl
      (by intro op hop
          rcases List.mem_cons.mp hop with rfl | hop2
          · rfl
          · rcases List.mem_cons.mp hop2 with rfl | hop3
            · rfl
            · exact absurd hop3 (by simp))
      (by decide)
      (by decide)
      (by rfl)
      (CLEvent.createContext 11) (by simp)
